import Mathlib

/-!
Verification of the hot-reload configuration store of `rnostr`
(`src/relay/src/setting.rs`), as a shallow embedding in Lean 4.

Modelling conventions:
- Machine integers (`u16`, `u64`, `usize`) become `Nat`; the loader checks a
  `u16` bound where the source's deserialization would.
- `PathBuf` values stored in the document become `String`.
- The external `config` crate is modelled at the level of its observable
  behaviour in `Setting::read`: the file is represented by its parse outcome
  (`Except Error FileTable`, where the error covers an unreadable/missing file
  or malformed content), and the layered build (defaults as the base source,
  file contents as the override source) followed by `try_deserialize` becomes a
  field-by-field merge in which a file value of the wrong type for its field is
  a type error that fails the whole load.
- The external `notify` crate's public event taxonomy is embedded
  (`EventKind` with its modify subtypes; `EventKind::is_modify` is true exactly
  for the `Modify` family, which includes metadata-only and rename events).
- `Arc<RwLock<Setting>>` serializes the writer against readers, and the only
  writer holds the write lock across the whole assignment, so reads and the
  swap are atomic; the watcher callback therefore becomes a sequential step
  function on the stored document, and a run of the listener becomes a fold of
  that step over the delivered events.
-/

namespace Rnostr

/-- Untyped configuration value, standing in for the value representation of
the external `config`/TOML layer (scalars, arrays, nested tables). -/
inductive RawValue where
  | str (s : String)
  | int (n : Int)
  | bool (b : Bool)
  | arr (items : List RawValue)
  | table (entries : List (String × RawValue))

/-- A parsed configuration file: the top-level table, a list of key/value
entries (sections are keys whose value is a `RawValue.table`). -/
def FileTable := List (String × RawValue)

/-- Unified error type standing in for `crate::Result`'s error: I/O errors,
malformed content, a value/field type conflict, and watcher failures. -/
inductive Error where
  | notFound
  | unreadable
  | malformed
  | typeMismatch (sec key : String)
  | watchFail
deriving DecidableEq

/-- Rust struct `Information`: all fields optional, default absent. -/
structure Information where
  name : Option String
  description : Option String
  pubkey : Option String
  contact : Option String

/-- Rust struct `Db` (a single filesystem path). -/
structure Db where
  path : String

/-- Rust struct `Thread` (thread-count configuration). -/
structure Thread where
  http : Nat
  reader : Nat

/-- Rust struct `Network`. -/
structure Network where
  host : String
  port : Nat
  heartbeat_timeout : Nat
  heartbeat_interval : Nat
  real_ip_header : Option (List String)

/-- Rust struct `Limitation`. -/
structure Limitation where
  max_message_length : Nat
  max_subscriptions : Nat
  max_filters : Nat
  max_limit : Nat
  max_subid_length : Nat
  min_prefix : Nat
  max_event_tags : Nat
  max_event_time_older_than_now : Nat
  max_event_time_newer_than_now : Nat

/-- Rust struct `Setting`: the configuration document, with the
`#[serde(flatten)]` extensions map for unrecognized sections. -/
structure Setting where
  information : Information
  db : Db
  thread : Thread
  network : Network
  limitation : Limitation
  extensions : List (String × List (String × RawValue))

/-- `impl Default for Information` (derived: every field `None`). -/
def Information.default : Information :=
  { name := none, description := none, pubkey := none, contact := none }

/-- `impl Default for Db`. -/
def Db.default : Db := { path := "./data" }

/-- `impl Default for Thread`. -/
def Thread.default : Thread := { reader := 0, http := 0 }

/-- `impl Default for Network`. -/
def Network.default : Network :=
  { host := "127.0.0.1"
    port := 7707
    heartbeat_interval := 60
    heartbeat_timeout := 120
    real_ip_header := none }

/-- `impl Default for Limitation`. -/
def Limitation.default : Limitation :=
  { max_message_length := 65536
    max_subscriptions := 20
    max_filters := 10
    max_limit := 300
    max_subid_length := 100
    min_prefix := 10
    max_event_tags := 5000
    max_event_time_older_than_now := 94608000
    max_event_time_newer_than_now := 900 }

/-- `impl Default for Setting` (derived from the section defaults; the derived
default of a `HashMap` is empty). -/
def Setting.default : Setting :=
  { information := Information.default
    db := Db.default
    thread := Thread.default
    network := Network.default
    limitation := Limitation.default
    extensions := [] }

/-- Key lookup in a table of entries (first match, as key paths are unique in
a parsed configuration table). -/
def lookupKey (entries : List (String × RawValue)) (k : String) : Option RawValue :=
  (entries.find? (fun p => p.1 == k)).map Prod.snd

/-- Coerce a raw value to a string field, as the config layer does when
deserializing a `String` field (scalars convert, structured values do not). -/
def getStr (sec key : String) : RawValue → Except Error String
  | .str s => .ok s
  | .int n => .ok (toString n)
  | .bool b => .ok (if b then "true" else "false")
  | _ => .error (.typeMismatch sec key)

/-- Accumulate a decimal digit string; any non-digit character fails. -/
def natOfDigits : List Char → Nat → Option Nat
  | [], acc => some acc
  | c :: cs, acc =>
      if c.isDigit then natOfDigits cs (acc * 10 + (c.toNat - 48))
      else none

/-- Parse a nonempty all-digits string as a natural number (the numeric-string
coercion the config layer applies when an integer field is given a string). -/
def strToNat? (s : String) : Option Nat :=
  match s.data with
  | [] => none
  | cs => natOfDigits cs 0

/-- Coerce a raw value to an unsigned integer field (`u64`/`usize`): integers
in range directly, numeric strings by parsing; anything else is the type
conflict the spec calls out (e.g. a non-numeric `port`). -/
def getNat (sec key : String) : RawValue → Except Error Nat
  | .int n => if 0 ≤ n then .ok n.toNat else .error (.typeMismatch sec key)
  | .str s =>
      match strToNat? s with
      | some n => .ok n
      | none => .error (.typeMismatch sec key)
  | _ => .error (.typeMismatch sec key)

/-- Coerce to a `u16` field: as `getNat`, with the 16-bit range check that
deserializing into `u16` performs. -/
def getU16 (sec key : String) (v : RawValue) : Except Error Nat := do
  let n ← getNat sec key v
  if n < 65536 then .ok n else .error (.typeMismatch sec key)

/-- Convert a list of raw values to strings, elementwise. -/
def getStrEach (sec key : String) : List RawValue → Except Error (List String)
  | [] => .ok []
  | v :: rest => do
      let s ← getStr sec key v
      let r ← getStrEach sec key rest
      .ok (s :: r)

/-- Coerce a raw value to a list of strings (an array field; a scalar is
accepted as a one-element list, as the config layer does). -/
def getStrList (sec key : String) : RawValue → Except Error (List String)
  | .arr items => getStrEach sec key items
  | .table _ => .error (.typeMismatch sec key)
  | v => do
      let s ← getStr sec key v
      .ok [s]

/-- Merge for a string field: the file's value if present (converted),
otherwise the default-layer value. -/
def mergeStr (sec : List (String × RawValue)) (secName key : String) (d : String) :
    Except Error String :=
  match lookupKey sec key with
  | none => .ok d
  | some v => getStr secName key v

/-- Merge for an unsigned-integer field. -/
def mergeNat (sec : List (String × RawValue)) (secName key : String) (d : Nat) :
    Except Error Nat :=
  match lookupKey sec key with
  | none => .ok d
  | some v => getNat secName key v

/-- Merge for a `u16` field. -/
def mergeU16 (sec : List (String × RawValue)) (secName key : String) (d : Nat) :
    Except Error Nat :=
  match lookupKey sec key with
  | none => .ok d
  | some v => getU16 secName key v

/-- Merge for an `Option<String>` field. -/
def mergeOptStr (sec : List (String × RawValue)) (secName key : String)
    (d : Option String) : Except Error (Option String) :=
  match lookupKey sec key with
  | none => .ok d
  | some v => do
      let s ← getStr secName key v
      .ok (some s)

/-- Merge for an `Option<Vec<String>>` field. -/
def mergeOptStrList (sec : List (String × RawValue)) (secName key : String)
    (d : Option (List String)) : Except Error (Option (List String)) :=
  match lookupKey sec key with
  | none => .ok d
  | some v => do
      let l ← getStrList secName key v
      .ok (some l)

/-- Extract a named section from the top-level table: absent means the default
layer alone populates it (an empty override), present-but-not-a-table is a
type conflict for the whole section. -/
def sectionOf (tbl : FileTable) (name : String) :
    Except Error (List (String × RawValue)) :=
  match lookupKey tbl name with
  | none => .ok []
  | some (.table entries) => .ok entries
  | some _ => .error (.typeMismatch name "")

/-- The section names of the fixed fields of `Setting`; any other top-level
key lands in the flattened `extensions` map. -/
def knownSections : List String :=
  ["information", "db", "thread", "network", "limitation"]

/-- Collect the unrecognized top-level sections into the `extensions` map.
Each must be a table of key/value pairs (the flattened field's type is
`HashMap<String, HashMap<String, Value>>`); a scalar at the top level fails
deserialization of the whole document. -/
def extensionsOf : FileTable → Except Error (List (String × List (String × RawValue)))
  | [] => .ok []
  | (k, v) :: rest =>
      if knownSections.contains k then extensionsOf rest
      else
        match v with
        | .table entries => do
            let r ← extensionsOf rest
            .ok ((k, entries) :: r)
        | _ => .error (.typeMismatch k "")

/-- `Setting::read`, the Loader core, on the parse outcome of the file:
build a layered configuration with `Setting::default()` as the base source and
the file contents as the override source, then deserialize. File-layer values
replace default-layer values field-by-field; any conversion failure fails the
whole load with no document returned. -/
def Setting.read (file : Except Error FileTable) : Except Error Setting := do
  let defs := Setting.default
  let tbl ← file
  let infoSec ← sectionOf tbl "information"
  let dbSec ← sectionOf tbl "db"
  let threadSec ← sectionOf tbl "thread"
  let netSec ← sectionOf tbl "network"
  let limSec ← sectionOf tbl "limitation"
  let name ← mergeOptStr infoSec "information" "name" defs.information.name
  let description ← mergeOptStr infoSec "information" "description" defs.information.description
  let pubkey ← mergeOptStr infoSec "information" "pubkey" defs.information.pubkey
  let contact ← mergeOptStr infoSec "information" "contact" defs.information.contact
  let dbPath ← mergeStr dbSec "db" "path" defs.db.path
  let http ← mergeNat threadSec "thread" "http" defs.thread.http
  let reader ← mergeNat threadSec "thread" "reader" defs.thread.reader
  let host ← mergeStr netSec "network" "host" defs.network.host
  let port ← mergeU16 netSec "network" "port" defs.network.port
  let heartbeat_timeout ← mergeNat netSec "network" "heartbeat_timeout" defs.network.heartbeat_timeout
  let heartbeat_interval ← mergeNat netSec "network" "heartbeat_interval" defs.network.heartbeat_interval
  let real_ip_header ← mergeOptStrList netSec "network" "real_ip_header" defs.network.real_ip_header
  let max_message_length ← mergeNat limSec "limitation" "max_message_length" defs.limitation.max_message_length
  let max_subscriptions ← mergeNat limSec "limitation" "max_subscriptions" defs.limitation.max_subscriptions
  let max_filters ← mergeNat limSec "limitation" "max_filters" defs.limitation.max_filters
  let max_limit ← mergeNat limSec "limitation" "max_limit" defs.limitation.max_limit
  let max_subid_length ← mergeNat limSec "limitation" "max_subid_length" defs.limitation.max_subid_length
  let minPrefixDefault := Limitation.min_prefix defs.limitation
  let minPrefixMerged ← mergeNat limSec "limitation" "min_prefix" minPrefixDefault
  let max_event_tags ← mergeNat limSec "limitation" "max_event_tags" defs.limitation.max_event_tags
  let max_event_time_older_than_now ←
    mergeNat limSec "limitation" "max_event_time_older_than_now" defs.limitation.max_event_time_older_than_now
  let max_event_time_newer_than_now ←
    mergeNat limSec "limitation" "max_event_time_newer_than_now" defs.limitation.max_event_time_newer_than_now
  let extensions ← extensionsOf tbl
  .ok
    { information := { name, description, pubkey, contact }
      db := { path := dbPath }
      thread := { http, reader }
      network := { host, port, heartbeat_timeout, heartbeat_interval, real_ip_header }
      limitation :=
        { max_message_length, max_subscriptions, max_filters, max_limit
          max_subid_length, min_prefix := minPrefixMerged, max_event_tags
          max_event_time_older_than_now, max_event_time_newer_than_now }
      extensions }

/-- Subtypes of a `notify` modify event (`notify::event::ModifyKind`): data
change, metadata-only change, rename, or unspecified. -/
inductive ModifyKind where
  | any
  | data
  | metadata
  | name
  | other
deriving DecidableEq

/-- The `notify` crate's event taxonomy (`notify::EventKind`). -/
inductive EventKind where
  | any
  | access
  | create
  | modify (k : ModifyKind)
  | remove
  | other
deriving DecidableEq

/-- `notify::EventKind::is_modify`: true exactly for the `Modify` family
(which includes metadata-only and rename modifications). -/
def EventKind.is_modify : EventKind → Bool
  | .modify _ => true
  | _ => false

/-- A filesystem event delivered to the watcher callback (`notify::Event`,
restricted to the part the callback inspects). -/
structure Event where
  kind : EventKind

/-- What one callback invocation reports (`info!` / `error!` lines). -/
inductive LogEntry where
  | reloadSuccess
  | reloadFailed (e : Error)
  | watchFailed (e : Error)
deriving DecidableEq

/-- The watcher callback of `Setting::watch`, as a step function on the
document stored in the `RwLock` (the write lock makes the assignment atomic,
so one callback invocation is one sequential step). `res` is the
`Result<Event, notify::Error>` the callback receives; `file` is the parse
outcome of the watched file's contents at the moment `Self::read(&c_file)`
runs. Returns the document now stored plus what was logged. -/
def handleEvent (st : Setting) (res : Except Error Event)
    (file : Except Error FileTable) : Setting × Option LogEntry :=
  match res with
  | .ok event =>
      if EventKind.is_modify event.kind then
        match Setting.read file with
        | .ok new_setting => (new_setting, some .reloadSuccess)
        | .error e => (st, some (.reloadFailed e))
      else (st, none)
  | .error e => (st, some (.watchFailed e))

/-- Run the listener over a sequence of delivered events, each paired with the
file contents in effect when its reload (if any) reads the file; returns the
document stored at the end. -/
def runEvents (st : Setting) :
    List (Except Error Event × Except Error FileTable) → Setting
  | [] => st
  | (res, file) :: rest => runEvents (handleEvent st res file).1 rest

/-- Every document readable through the shared handle along a run: the state
before any event and the state after each event (readers holding the lock see
exactly one of these, never anything in between, by the `RwLock`). -/
def observedStates (st : Setting) :
    List (Except Error Event × Except Error FileTable) → List Setting
  | [] => [st]
  | (res, file) :: rest => st :: observedStates (handleEvent st res file).1 rest

/-- True when the callback invocation logged the outcome of a reload attempt
(success or failure) — i.e. exactly when the Loader was invoked. -/
def loaderInvoked (step : Setting × Option LogEntry) : Bool :=
  match step.2 with
  | some .reloadSuccess => true
  | some (.reloadFailed _) => true
  | _ => false

/-- A filesystem path as handed to `Setting::read` (`P: AsRef<Path>`): OS
paths are byte sequences that need not be valid UTF-8. -/
inductive FsPath where
  | utf8 (s : String)
  | nonUtf8 (bytes : List Nat)

/-- `Path::to_str`: `Some` exactly when the path is valid UTF-8. -/
def FsPath.to_str : FsPath → Option String
  | .utf8 s => some s
  | .nonUtf8 _ => none

/-- Outcome of calling a function that can also abort: `Setting::read` calls
`file.as_ref().to_str().unwrap()`, which panics instead of producing the
`Err` branch of the `Result` when `to_str` is `None`. -/
inductive ReadOutcome (α : Type) where
  | ok (a : α)
  | err (e : Error)
  | panicked

/-- `Setting::read` including its path handling: `to_str().unwrap()` first
(panicking on a non-UTF-8 path), then the file source is read and the layered
load runs. `fs` maps the UTF-8 path string to the file's parse outcome. -/
def Setting.readPath (fs : String → Except Error FileTable) (p : FsPath) :
    ReadOutcome Setting :=
  match FsPath.to_str p with
  | none => .panicked
  | some s =>
      match Setting.read (fs s) with
      | .ok st => .ok st
      | .error e => .err e

/-- `Setting::read_wrapper`: `read` then wrap in `Arc<RwLock<_>>` (the wrapper
is transparent in the embedding — it stores exactly the returned document). -/
def Setting.read_wrapper (fs : String → Except Error FileTable) (p : FsPath) :
    ReadOutcome Setting :=
  Setting.readPath fs p

/-- `Setting::watch` construction: one synchronous `Self::read(&file)?`
(its error — or panic — propagating to the caller before anything else), then
creation of the `RecommendedWatcher` and registration of the watch, each of
which can fail (`?`). On success the caller gets the handle and the watcher;
the stored document is the initial load's output. -/
def Setting.watch (fs : String → Except Error FileTable) (p : FsPath)
    (watcherNewOk : Bool) (watchRegOk : Bool) : ReadOutcome (Setting × Unit) :=
  match Setting.readPath fs p with
  | .panicked => .panicked
  | .err e => .err e
  | .ok setting =>
      if watcherNewOk then
        if watchRegOk then .ok (setting, ()) else .err .watchFail
      else .err .watchFail

/-! Theorems. -/

/-- Every state reached by one callback step is either the previous state or
the `ok` output of the Loader on the file contents seen by that step. -/
theorem handleEvent_state_is_load_output (st : Setting) (res : Except Error Event)
    (file : Except Error FileTable) :
    (handleEvent st res file).1 = st ∨
      Setting.read file = .ok (handleEvent st res file).1 := by
  unfold handleEvent
  cases res with
  | error e => exact .inl rfl
  | ok event =>
    cases hk : EventKind.is_modify event.kind with
    | false => simp [hk]
    | true =>
      cases hr : Setting.read file with
      | ok s => simp [hk, hr]
      | error e => simp [hk, hr]

/-- Claim C1 — if the re-load triggered by a modification event fails, the
stored document is exactly the one from before the event, the only effect is
the reported error, and the listener keeps processing subsequent events from
that unchanged state. -/
theorem failed_reload_leaves_document_unchanged
    (st : Setting) (ev : Event) (hm : EventKind.is_modify ev.kind = true)
    (file : Except Error FileTable) (e : Error)
    (he : Setting.read file = .error e) :
    handleEvent st (.ok ev) file = (st, some (.reloadFailed e)) ∧
    ∀ rest, runEvents st ((.ok ev, file) :: rest) = runEvents st rest := by
  have h1 : handleEvent st (.ok ev) file = (st, some (.reloadFailed e)) := by
    simp [handleEvent, hm, he]
  exact ⟨h1, fun rest => by simp [runEvents, h1]⟩

/-- Witness for C1 at a concrete state, event and malformed file. -/
theorem failed_reload_leaves_document_unchanged_witness :
    handleEvent Setting.default (.ok { kind := .modify .data }) (.error .malformed) =
      (Setting.default, some (.reloadFailed .malformed)) :=
  (failed_reload_leaves_document_unchanged Setting.default { kind := .modify .data }
    rfl (.error .malformed) .malformed rfl).1

/-- Along a run of the listener, every observed state is the starting state or
the `ok` output of the Loader on the file contents of one of the run's own
events. -/
theorem observedStates_from_run
    (evs : List (Except Error Event × Except Error FileTable)) :
    ∀ st, ∀ s ∈ observedStates st evs,
      s = st ∨ ∃ p ∈ evs, Setting.read p.2 = .ok s := by
  induction evs with
  | nil =>
    intro st s hs
    simp only [observedStates, List.mem_singleton] at hs
    exact .inl hs
  | cons p rest ih =>
    intro st s hs
    obtain ⟨res, file⟩ := p
    simp only [observedStates, List.mem_cons] at hs
    rcases hs with rfl | hs
    · exact .inl rfl
    · rcases ih (handleEvent st res file).1 s hs with rfl | ⟨q, hq, hqs⟩
      · rcases handleEvent_state_is_load_output st res file with heq | hok
        · exact .inl heq
        · exact .inr ⟨(res, file), List.mem_cons_self _ _, hok⟩
      · exact .inr ⟨q, List.mem_cons_of_mem _ hq, hqs⟩

/-- Claim C2 — along any run of the listener starting from a document produced
by the initial load of file `f0`, every document readable through the handle
(the state before any event and after each event — the only states a reader
can observe, the `RwLock` making each swap atomic) is the unmodified `ok`
output of one single Loader invocation of that very run: the initial load or
the reload of one of the run's events. In particular no observed document
mixes fields from two different loads — each equals one load's whole
output. -/
theorem no_torn_reads (f0 : Except Error FileTable) (init : Setting)
    (h0 : Setting.read f0 = .ok init)
    (evs : List (Except Error Event × Except Error FileTable)) :
    ∀ s ∈ observedStates init evs,
      ∃ f, (f = f0 ∨ f ∈ List.map Prod.snd evs) ∧ Setting.read f = .ok s := by
  intro s hs
  rcases observedStates_from_run evs init s hs with rfl | ⟨p, hp, hps⟩
  · exact ⟨f0, .inl rfl, h0⟩
  · exact ⟨p.2, .inr (List.mem_map_of_mem Prod.snd hp), hps⟩

/-- Witness for C2: the empty run from the initial load of an empty file. -/
theorem no_torn_reads_witness :
    ∃ f, (f = Except.ok ([] : FileTable) ∨
          f ∈ List.map Prod.snd
            ([] : List (Except Error Event × Except Error FileTable))) ∧
      Setting.read f = .ok Setting.default :=
  no_torn_reads (.ok []) Setting.default rfl [] Setting.default
    (by simp [observedStates])

/-- Claim C3 — once a modification event is processed and the re-load of the
new contents B succeeds, the stored document is exactly the Loader's output on
B, so every subsequent read returns it (settling time: the one event-handling
step). -/
theorem reload_replaces (st dB : Setting) (ev : Event)
    (hm : EventKind.is_modify ev.kind = true)
    (fB : Except Error FileTable) (hB : Setting.read fB = .ok dB) :
    handleEvent st (.ok ev) fB = (dB, some .reloadSuccess) ∧
    runEvents st [(.ok ev, fB)] = dB := by
  have h1 : handleEvent st (.ok ev) fB = (dB, some .reloadSuccess) := by
    simp [handleEvent, hm, hB]
  exact ⟨h1, by simp [runEvents, h1]⟩

/-- Witness for C3 at a concrete rewrite of the file. -/
theorem reload_replaces_witness :
    runEvents Setting.default
      [(.ok { kind := .modify .data },
        .ok [("information", RawValue.table [("name", RawValue.str "nostr")])])] =
      { Setting.default with
          information := { Information.default with name := some "nostr" } } :=
  (reload_replaces Setting.default
    { Setting.default with
        information := { Information.default with name := some "nostr" } }
    { kind := .modify .data } rfl
    (.ok [("information", RawValue.table [("name", RawValue.str "nostr")])]) rfl).2

/-- Claim C4 — loading an empty file yields the default document, whose fields
are the documented constants; the Loader's output type has every field
present, so the document is always fully populated. -/
theorem empty_file_yields_documented_defaults :
    Setting.read (.ok []) = .ok Setting.default ∧
    Setting.default.network.host = "127.0.0.1" ∧
    Setting.default.network.port = 7707 ∧
    Setting.default.network.heartbeat_interval = 60 ∧
    Setting.default.network.heartbeat_timeout = 120 ∧
    Setting.default.db.path = "./data" ∧
    Setting.default.limitation.max_subscriptions = 20 ∧
    Setting.default.limitation.max_message_length = 65536 ∧
    Setting.default.information.name = none ∧
    Setting.default.thread.http = 0 ∧
    Setting.default.extensions = [] :=
  ⟨rfl, rfl, rfl, rfl, rfl, rfl, rfl, rfl, rfl, rfl, rfl⟩

/-- Claim C5 — the merge is field-by-field: a file setting only
`information.name` yields a document whose `name` is the file's value while
every sibling field of the identity section and every other section keep
their defaults (port still 7707, max_subscriptions still 20). -/
theorem single_field_override_is_field_by_field :
    ∃ s, Setting.read
        (.ok [("information", RawValue.table [("name", RawValue.str "nostr")])]) =
        .ok s ∧
      s.information.name = some "nostr" ∧
      s.information.description = none ∧
      s.information.pubkey = none ∧
      s.information.contact = none ∧
      s.network = Network.default ∧
      s.network.port = 7707 ∧
      s.limitation = Limitation.default ∧
      s.limitation.max_subscriptions = 20 ∧
      s.db = Db.default ∧
      s.thread = Thread.default ∧
      s.extensions = [] :=
  ⟨_, rfl, rfl, rfl, rfl, rfl, rfl, rfl, rfl, rfl, rfl, rfl, rfl⟩

/-- Claim C6 — the Loader is all-or-nothing: on every input it returns either
a full document or an error (the result type admits nothing else, so no
part-document escapes on an error), and a missing file, an unreadable path,
malformed content, and a type-conflicting value (non-numeric `port`) each
produce an error. -/
theorem loader_is_all_or_nothing :
    (∀ file : Except Error FileTable,
        (∃ s, Setting.read file = .ok s) ∨ (∃ e, Setting.read file = .error e)) ∧
    Setting.read (.error .notFound) = .error .notFound ∧
    Setting.read (.error .unreadable) = .error .unreadable ∧
    Setting.read (.error .malformed) = .error .malformed ∧
    Setting.read
        (.ok [("network", RawValue.table [("port", RawValue.str "not-a-number")])]) =
      .error (.typeMismatch "network" "port") := by
  refine ⟨fun file => ?_, rfl, rfl, rfl, rfl⟩
  cases h : Setting.read file with
  | ok s => exact .inl ⟨s, rfl⟩
  | error e => exact .inr ⟨e, rfl⟩

/-- Claim C7 — if the single synchronous initial load of `Setting::watch`
fails, construction fails with that same error: no handle/watcher pair is
produced and the result is never the default document. -/
theorem construction_fails_when_initial_load_fails
    (fs : String → Except Error FileTable) (p : FsPath) (e : Error)
    (h : Setting.readPath fs p = .err e) (wNew wReg : Bool) :
    Setting.watch fs p wNew wReg = .err e := by
  simp [Setting.watch, h]

/-- Witness for C7: watching a missing file fails construction. -/
theorem construction_fails_when_initial_load_fails_witness :
    Setting.watch (fun _ => .error .notFound) (.utf8 "config.toml") true true =
      .err .notFound :=
  construction_fails_when_initial_load_fails (fun _ => .error .notFound)
    (.utf8 "config.toml") .notFound rfl true true

/-- Claim C8, counterexample — a metadata-only modification event
(`Modify(Metadata)`, for which `is_modify()` is true) makes the callback
invoke the Loader, so metadata-only events are not ignored as claimed. -/
theorem metadata_only_event_triggers_reload :
    loaderInvoked (handleEvent Setting.default
      (.ok { kind := .modify .metadata }) (.ok [])) = true := rfl

/-- Claim C8, amended — a delivered event triggers a reload attempt exactly
when its kind is in the `Modify` family (`event.kind.is_modify()`), which
includes metadata-only and rename modifications; access, create, remove and
other kinds, and error notifications, never invoke the Loader. -/
theorem reload_attempted_iff_modify_event (st : Setting) (ev : Event)
    (e : Error) (file : Except Error FileTable) :
    loaderInvoked (handleEvent st (.ok ev) file) = EventKind.is_modify ev.kind ∧
    loaderInvoked (handleEvent st (.error e) file) = false := by
  constructor
  · unfold handleEvent
    cases hk : EventKind.is_modify ev.kind with
    | false => simp [hk, loaderInvoked]
    | true =>
      cases hr : Setting.read file with
      | ok s => simp [hk, hr, loaderInvoked]
      | error e2 => simp [hk, hr, loaderInvoked]
  · rfl

/-- Claim C9 — the Loader is a pure function of the file contents: re-running
it on the same contents yields the same result, so equal contents give
field-wise equal documents and a duplicate event re-runs it harmlessly. -/
theorem loader_deterministic (file : Except Error FileTable) :
    Setting.read file = Setting.read file ∧
    ∀ s1 s2, Setting.read file = .ok s1 → Setting.read file = .ok s2 → s1 = s2 := by
  refine ⟨rfl, fun s1 s2 h1 h2 => ?_⟩
  rw [h1] at h2
  injection h2

/-- Witness for C9 on the empty file. -/
theorem loader_deterministic_witness : Setting.default = Setting.default :=
  (loader_deterministic (.ok [])).2 Setting.default Setting.default rfl rfl

/-- Claim C10 — on a non-UTF-8 path, `to_str().unwrap()` aborts before the
file source is ever consulted: `Setting::read` (and with it `read_wrapper`
and `watch`) panics rather than returning through the `Err` branch, whatever
the filesystem contains. -/
theorem non_utf8_path_panics (fs : String → Except Error FileTable)
    (bytes : List Nat) (wNew wReg : Bool) :
    Setting.readPath fs (.nonUtf8 bytes) = .panicked ∧
    Setting.read_wrapper fs (.nonUtf8 bytes) = .panicked ∧
    Setting.watch fs (.nonUtf8 bytes) wNew wReg = .panicked :=
  ⟨rfl, rfl, rfl⟩

end Rnostr
